import Mathlib

/-!
Verification of the MODEL_VIEWER estimation core.

This file gives a shallow embedding, over the rationals, of the three pure
calculators in `backend/app/services/mfu_calculator.py`,
`backend/app/routers/concurrency.py` and `backend/app/services/optimizer.py`:
the utilization (MFU) estimator, the concurrency estimator and the
optimization advisor. Python floats are modelled as `ℚ`; Python's
`round(x, n)` is modelled as rounding to the nearest multiple of `10^(-n)`
(Python uses round-half-to-even on binary floats; no property proved here
depends on half-way cases); Python's `int(x)` truncation toward zero is
modelled by `pyTrunc`. A Python `ZeroDivisionError` raised by
`calculate_concurrency_logic` is modelled by returning `none`.
-/

namespace ModelViewer

/-- Embeds `round(x, ndigits)`: round to the nearest multiple of
`10 ^ (-ndigits)`. -/
def pyRound (q : ℚ) (ndigits : ℕ) : ℚ :=
  (round (q * 10 ^ ndigits) : ℚ) / 10 ^ ndigits

/-- Embeds Python `int(q)` on a float value: truncation toward zero. -/
def pyTrunc (q : ℚ) : ℤ :=
  if q < 0 then -⌊-q⌋ else ⌊q⌋

/-- Embeds the `HardwareInfo` dataclass of `mfu_calculator.py`. -/
structure HardwareInfo where
  fp16_peak_tflops : ℚ
  bf32_peak_tflops : ℚ
  fp32_peak_tflops : ℚ
  memory_size_gb : ℚ
  memory_bandwidth_tbps : ℚ
deriving DecidableEq

/-- Embeds the `ModelInfo` dataclass of `mfu_calculator.py`. -/
structure ModelInfo where
  params_billions : ℚ
  num_layers : ℚ
  hidden_size : ℚ
  num_attention_heads : ℚ
  num_key_value_heads : ℚ
  vocab_size : ℚ
  intermediate_size : ℚ
  head_dim : ℚ
  max_position_embeddings : ℚ
deriving DecidableEq

/-- Embeds the `CalculationInput` dataclass of `mfu_calculator.py`. -/
structure CalculationInput where
  precision : String
  first_token_latency_ms : ℚ
  tpot_ms : ℚ
  context_length : ℚ
  generated_length : ℚ
  batch_size : ℚ
deriving DecidableEq

/-- Embeds the `CalculationOutput` dataclass of `mfu_calculator.py`. -/
structure CalculationOutput where
  mfu : ℚ
  memory_bandwidth_utilization : ℚ
  theoretical_flops : ℚ
  actual_flops : ℚ
  peak_flops : ℚ
  prefill_flops : ℚ
  decode_flops : ℚ
  kv_cache_bytes : ℚ
  model_memory_bytes : ℚ
  bottleneck_type : String
  tokens_per_second : ℚ
  total_time_ms : ℚ
deriving DecidableEq

/-- Embeds `MFUCalculator.PRECISION_SIZE.get(precision, 2)`: the byte width
table `{"fp16": 2, "bf16": 2, "fp32": 4}` with dict-`get` default 2. -/
def PRECISION_SIZE (precision : String) : ℚ :=
  if precision = "fp16" then 2
  else if precision = "bf16" then 2
  else if precision = "fp32" then 4
  else 2

/-- Embeds `MFUCalculator._get_peak_flops`: the precision map
`{"fp16": fp16_peak, "bf16": bf32_peak, "fp32": fp32_peak}` with dict-`get`
default `fp16_peak_tflops`. -/
def getPeakFlops (hardware : HardwareInfo) (precision : String) : ℚ :=
  if precision = "fp16" then hardware.fp16_peak_tflops
  else if precision = "bf16" then hardware.bf32_peak_tflops
  else if precision = "fp32" then hardware.fp32_peak_tflops
  else hardware.fp16_peak_tflops

/-- Embeds `MFUCalculator._calculate_prefill_flops`. -/
def calculatePrefillFlops (model : ModelInfo) (context_length : ℚ) : ℚ :=
  let L := model.num_layers
  let d := model.hidden_size
  let n := model.vocab_size
  let attention_flops := 4 * L * context_length * d * d
  let mlp_flops := 3 * L * context_length * d * model.intermediate_size
  let output_flops := L * context_length * d * n
  let total_flops := attention_flops + mlp_flops + output_flops
  2 * total_flops

/-- Embeds `MFUCalculator._calculate_decode_flops`. -/
def calculateDecodeFlops (model : ModelInfo) (generated_length batch_size : ℚ) : ℚ :=
  let L := model.num_layers
  let d := model.hidden_size
  let n := model.vocab_size
  let attention_flops := 4 * L * d * d
  let mlp_flops := 3 * L * d * model.intermediate_size
  let output_flops := L * d * n
  let per_token_flops := attention_flops + mlp_flops + output_flops
  2 * per_token_flops * generated_length * batch_size

/-- Embeds `MFUCalculator._calculate_kv_cache`. -/
def calculateKvCache (model : ModelInfo)
    (context_length generated_length batch_size : ℚ) (precision : String) : ℚ :=
  let precision_size := PRECISION_SIZE precision
  let total_seq_len := context_length + generated_length
  let kv_per_layer :=
    2 * model.num_attention_heads * model.head_dim * total_seq_len * precision_size
  let total_kv := model.num_layers * kv_per_layer
  total_kv * batch_size

/-- Embeds `MFUCalculator._calculate_model_memory`. -/
def calculateModelMemory (model : ModelInfo) (precision : String) : ℚ :=
  let precision_size := PRECISION_SIZE precision
  let d := model.hidden_size
  let L := model.num_layers
  let n := model.vocab_size
  let attention_params := 4 * L * d * d
  let mlp_params := 3 * L * d * model.intermediate_size
  let embedding_params := 2 * n * d
  let total_params := attention_params + mlp_params + embedding_params
  total_params * precision_size

/-- Embeds `MFUCalculator._calculate_required_bandwidth`. -/
def calculateRequiredBandwidth (model_memory_bytes kv_cache_bytes
    total_time_ms _batch_size : ℚ) : ℚ :=
  let total_bytes := model_memory_bytes + kv_cache_bytes
  if total_time_ms ≤ 0 then 0
  else
    let total_tb := total_bytes / 1000000000000
    let time_seconds := total_time_ms / 1000
    total_tb / time_seconds

/-- Embeds `MFUCalculator._determine_bottleneck`. -/
def determineBottleneck (mfu bandwidth_utilization : ℚ) : String :=
  if mfu > 70 ∧ bandwidth_utilization < 40 then "compute"
  else if mfu < 30 ∧ bandwidth_utilization > 70 then "memory"
  else "balanced"

/-- The local `total_time_ms` of `MFUCalculator.calculate`:
`first_token_latency_ms + generated_length * tpot_ms`. -/
def totalTimeMs (input_data : CalculationInput) : ℚ :=
  input_data.first_token_latency_ms +
    input_data.generated_length * input_data.tpot_ms

/-- The local `total_flops` of `MFUCalculator.calculate`: prefill + decode. -/
def totalFlops (model : ModelInfo) (input_data : CalculationInput) : ℚ :=
  calculatePrefillFlops model input_data.context_length +
    calculateDecodeFlops model input_data.generated_length input_data.batch_size

/-- The local `actual_flops` of `MFUCalculator.calculate`: peak FLOPS when the
elapsed time is non-positive, otherwise `total_flops / time_s / 1e12`. -/
def actualFlops (hardware : HardwareInfo) (model : ModelInfo)
    (input_data : CalculationInput) : ℚ :=
  let total_time_seconds := totalTimeMs input_data / 1000
  if total_time_seconds ≤ 0 then getPeakFlops hardware input_data.precision
  else totalFlops model input_data / total_time_seconds / 1000000000000

/-- The local `mfu` of `MFUCalculator.calculate`:
`actual_flops / peak_flops * 100` when `peak_flops > 0`, else 0. -/
def mfuValue (hardware : HardwareInfo) (model : ModelInfo)
    (input_data : CalculationInput) : ℚ :=
  if getPeakFlops hardware input_data.precision > 0 then
    actualFlops hardware model input_data /
      getPeakFlops hardware input_data.precision * 100
  else 0

/-- The local `memory_bandwidth_utilization` of `MFUCalculator.calculate`. -/
def bandwidthUtilization (hardware : HardwareInfo) (model : ModelInfo)
    (input_data : CalculationInput) : ℚ :=
  let kv_cache_bytes := calculateKvCache model input_data.context_length
    input_data.generated_length input_data.batch_size input_data.precision
  let model_memory_bytes := calculateModelMemory model input_data.precision
  let required_bandwidth := calculateRequiredBandwidth model_memory_bytes
    kv_cache_bytes (totalTimeMs input_data) input_data.batch_size
  if hardware.memory_bandwidth_tbps > 0 then
    required_bandwidth / hardware.memory_bandwidth_tbps * 100
  else 0

/-- The local `tokens_per_second` of `MFUCalculator.calculate`. -/
def tokensPerSecond (input_data : CalculationInput) : ℚ :=
  let total_time_seconds := totalTimeMs input_data / 1000
  if total_time_seconds > 0 then
    input_data.generated_length * input_data.batch_size / total_time_seconds
  else 0

/-- Embeds `MFUCalculator.calculate`, assembling the rounded output record
from the step values above (the bottleneck is classified on the unrounded
`mfu` and bandwidth utilization, as in the source). -/
def calculate (hardware : HardwareInfo) (model : ModelInfo)
    (input_data : CalculationInput) : CalculationOutput :=
  { mfu := pyRound (mfuValue hardware model input_data) 2
    memory_bandwidth_utilization :=
      pyRound (bandwidthUtilization hardware model input_data) 2
    theoretical_flops := pyRound (totalFlops model input_data / 1000000000000) 2
    actual_flops := pyRound (actualFlops hardware model input_data) 2
    peak_flops := pyRound (getPeakFlops hardware input_data.precision) 2
    prefill_flops := pyRound (calculatePrefillFlops model input_data.context_length) 0
    decode_flops := pyRound (calculateDecodeFlops model
      input_data.generated_length input_data.batch_size) 0
    kv_cache_bytes := pyRound (calculateKvCache model input_data.context_length
      input_data.generated_length input_data.batch_size input_data.precision) 0
    model_memory_bytes := pyRound (calculateModelMemory model input_data.precision) 0
    bottleneck_type := determineBottleneck (mfuValue hardware model input_data)
      (bandwidthUtilization hardware model input_data)
    tokens_per_second := pyRound (tokensPerSecond input_data) 2
    total_time_ms := pyRound (totalTimeMs input_data) 2 }

/-- Embeds the argument dictionary the caller (`routers/calculator.py`)
passes to the convenience function `calculate_mfu`: it carries a
`gpu_count` key alongside the calculation parameters. -/
structure CalcRequest where
  gpu_count : ℚ
  precision : String
  first_token_latency_ms : ℚ
  tpot_ms : ℚ
  context_length : ℚ
  generated_length : ℚ
  batch_size : ℚ
deriving DecidableEq

/-- Embeds the convenience function `calculate_mfu` of `mfu_calculator.py`:
it builds a `CalculationInput` from the keys `precision`,
`first_token_latency_ms`, `tpot_ms`, `context_length`, `generated_length`
and `batch_size` of the input dictionary — the `gpu_count` key is never
read — and runs `MFUCalculator.calculate`. -/
def calculate_mfu (hardware : HardwareInfo) (model : ModelInfo)
    (input_data : CalcRequest) : CalculationOutput :=
  calculate hardware model
    { precision := input_data.precision
      first_token_latency_ms := input_data.first_token_latency_ms
      tpot_ms := input_data.tpot_ms
      context_length := input_data.context_length
      generated_length := input_data.generated_length
      batch_size := input_data.batch_size }

/-! ### Concurrency estimator (`routers/concurrency.py`) -/

/-- Embeds the result dictionary of `calculate_concurrency_logic`, with the
memory breakdown flattened into named fields. -/
structure ConcurrencyResult where
  gpu_count : ℚ
  max_concurrency_without_pa : ℤ
  max_concurrency_with_pa : ℤ
  weight_memory_gb : ℚ
  framework_overhead_gb : ℚ
  kv_cache_memory_gb : ℚ
  activation_memory_gb : ℚ
  total_memory_breakdown_gb : ℚ
  hardware_memory_gb : ℚ
  available_memory_gb : ℚ
deriving DecidableEq

/-- The `precision_size` local of `calculate_concurrency_logic`:
`{"fp16": 2, "bf16": 2, "fp32": 4}.get(precision, 2)`. -/
def concPrecisionSize (precision : String) : ℚ :=
  if precision = "fp16" then 2
  else if precision = "bf16" then 2
  else if precision = "fp32" then 4
  else 2

/-- The `weight_memory_gb` local of `calculate_concurrency_logic`:
`params_billions * 1e9 * precision_size / 1024^3`. -/
def weightMemoryGb (model : ModelInfo) (precision : String) : ℚ :=
  model.params_billions * 1000000000 * concPrecisionSize precision / 1073741824

/-- The `kv_cache_memory_gb` local of `calculate_concurrency_logic`. -/
def kvCacheMemoryGb (model : ModelInfo) (context_length : ℚ)
    (precision : String) : ℚ :=
  2 * model.num_layers * model.num_attention_heads * model.head_dim *
    context_length * concPrecisionSize precision / 1073741824

/-- The `activation_memory_gb` local of `calculate_concurrency_logic`. -/
def activationMemoryGb (model : ModelInfo) (context_length : ℚ)
    (precision : String) : ℚ :=
  2 * model.num_layers * context_length * model.hidden_size *
    concPrecisionSize precision / 1073741824

/-- The `total_per_request` local of `calculate_concurrency_logic`: weights +
framework overhead + KV cache + activations. -/
def totalPerRequest (model : ModelInfo) (context_length : ℚ)
    (precision : String) (framework_overhead_gb : ℚ) : ℚ :=
  weightMemoryGb model precision + framework_overhead_gb +
    kvCacheMemoryGb model context_length precision +
    activationMemoryGb model context_length precision

/-- The `memory_with_pa` local of `calculate_concurrency_logic`: same as
`total_per_request` but with the KV-cache term divided by the paged-attention
factor 2.3. -/
def memoryWithPa (model : ModelInfo) (context_length : ℚ)
    (precision : String) (framework_overhead_gb : ℚ) : ℚ :=
  weightMemoryGb model precision + framework_overhead_gb +
    kvCacheMemoryGb model context_length precision / (23 / 10) +
    activationMemoryGb model context_length precision

/-- The `available_memory_gb` local of `calculate_concurrency_logic`:
`memory_size_gb * gpu_count - framework_overhead_gb`. -/
def availableMemoryGb (hardware : HardwareInfo) (gpu_count : ℚ)
    (framework_overhead_gb : ℚ) : ℚ :=
  hardware.memory_size_gb * gpu_count - framework_overhead_gb

/-- Embeds `calculate_concurrency_logic`. Python raises `ZeroDivisionError`
when a per-request memory divisor is zero; that is modelled as `none`. -/
def calculateConcurrencyLogic (hardware : HardwareInfo) (model : ModelInfo)
    (gpu_count context_length : ℚ) (precision : String)
    (framework_overhead_gb : ℚ) : Option ConcurrencyResult :=
  let total_per_request := totalPerRequest model context_length precision
    framework_overhead_gb
  let memory_with_pa := memoryWithPa model context_length precision
    framework_overhead_gb
  if total_per_request = 0 ∨ memory_with_pa = 0 then none
  else
    let total_memory_gb := hardware.memory_size_gb * gpu_count
    let available_memory_gb := availableMemoryGb hardware gpu_count
      framework_overhead_gb
    let max_concurrency_without_pa :=
      max 0 (pyTrunc (available_memory_gb / total_per_request))
    let max_concurrency_with_pa :=
      max 0 (pyTrunc (available_memory_gb / memory_with_pa))
    some
      { gpu_count := gpu_count
        max_concurrency_without_pa := max_concurrency_without_pa
        max_concurrency_with_pa := max_concurrency_with_pa
        weight_memory_gb := pyRound (weightMemoryGb model precision) 4
        framework_overhead_gb := pyRound framework_overhead_gb 4
        kv_cache_memory_gb :=
          pyRound (kvCacheMemoryGb model context_length precision) 4
        activation_memory_gb :=
          pyRound (activationMemoryGb model context_length precision) 4
        total_memory_breakdown_gb := pyRound total_per_request 4
        hardware_memory_gb := pyRound total_memory_gb 4
        available_memory_gb := pyRound available_memory_gb 4 }

/-! ### Optimization advisor (`services/optimizer.py`) -/

/-- Embeds the `OptimizationSuggestion` dataclass of `optimizer.py`. -/
structure Suggestion where
  category : String
  priority : String
  suggestion : String
  impact : String
deriving DecidableEq

/-- The fields of the optional `hardware_info` dictionary that the advisor
reads; a key missing from the caller's dictionary corresponds to the
dict-`get` default 0. -/
structure HardwareCtx where
  fp16_peak_tflops : ℚ
deriving DecidableEq

/-- The fields of the optional `model_info` dictionary that the advisor
reads; a key missing from the caller's dictionary corresponds to the
dict-`get` default 0. -/
structure ModelCtx where
  num_layers : ℚ
  context_length : ℚ
deriving DecidableEq

/-- Embeds `OptimizationEngine._get_compute_bottleneck_suggestions`. -/
def getComputeBottleneckSuggestions (mfu : ℚ) (hardware_info : Option HardwareCtx)
    (model_info : Option ModelCtx) : List Suggestion :=
  (if mfu < 30 then
    [{ category := "Hardware Upgrade", priority := "high",
       suggestion := "考虑使用更高算力的 GPU（如 H100 替代 A100）",
       impact := "可将 MFU 提升 2-3 倍" }]
  else []) ++
  (if mfu < 50 then
    [{ category := "Precision Optimization", priority := "high",
       suggestion := "启用 Tensor Core 加速（使用 FP16/BF16 而非 FP32）",
       impact := "可提升 2-4 倍计算性能" }]
  else []) ++
  (if (match hardware_info with
       | some h => h.fp16_peak_tflops
       | none => 0) > 1000 then
    [{ category := "Batch Optimization", priority := "medium",
       suggestion := "增加批处理大小 (batch_size)，提高 GPU 利用率",
       impact := "提升吞吐量，降低单请求成本" }]
  else []) ++
  (if (match model_info with
       | some m => m.num_layers
       | none => 0) > 50 then
    [{ category := "Model Optimization", priority := "medium",
       suggestion := "考虑模型蒸馏或剪枝，减少计算量",
       impact := "在保持质量的同时提升推理速度" }]
  else []) ++
  [{ category := "System Config", priority := "low",
     suggestion := "确保 CUDA、cuBLAS 和 cuDNN 为最新版本",
     impact := "可获得最新的性能优化" }]

/-- Embeds `OptimizationEngine._get_memory_bottleneck_suggestions`. -/
def getMemoryBottleneckSuggestions (bandwidth_utilization : ℚ)
    (_hardware_info : Option HardwareCtx) (model_info : Option ModelCtx) :
    List Suggestion :=
  (if bandwidth_utilization > 90 then
    [{ category := "Batch Optimization", priority := "high",
       suggestion := "减小批处理大小 (batch_size)",
       impact := "显著降低显存带宽压力" },
     { category := "Hardware Upgrade", priority := "high",
       suggestion := "使用高带宽显存的 GPU（如 H100 替代 A100）",
       impact := "H100 带宽是 A100 的 1.6 倍" }]
  else []) ++
  (if bandwidth_utilization > 70 then
    [{ category := "Model Optimization", priority := "medium",
       suggestion := "考虑模型量化（INT8/INT4）",
       impact := "减少显存访问量，提升带宽利用率" },
     { category := "Config Optimization", priority := "medium",
       suggestion := "启用 KV Cache 优化（PagedAttention）",
       impact := "减少 KV Cache 显存占用和带宽使用" }]
  else []) ++
  (if (match model_info with
       | some m => m.context_length
       | none => 0) > 8000 then
    [{ category := "Input Optimization", priority := "medium",
       suggestion := "考虑使用滑动窗口或稀疏注意力减少长上下文计算",
       impact := "降低长上下文的显存带宽压力" }]
  else []) ++
  [{ category := "System Config", priority := "low",
     suggestion := "启用显存池和内存锁定",
     impact := "减少显存分配开销" }]

/-- Embeds `OptimizationEngine._get_balanced_suggestions`: the status and
monitoring entries, both low priority. -/
def getBalancedSuggestions : List Suggestion :=
  [{ category := "Status", priority := "low",
     suggestion := "当前系统运行在合理效率范围",
     impact := "无需特殊优化" },
   { category := "Monitoring", priority := "low",
     suggestion := "持续监控 MFU 和带宽使用率变化",
     impact := "及时发现性能波动" }]

/-- Embeds `OptimizationEngine.generate_suggestions`: dispatch on the
bottleneck type, with every value other than "compute" and "memory" taking
the balanced branch. -/
def generateSuggestions (mfu bandwidth_utilization : ℚ)
    (hardware_info : Option HardwareCtx) (model_info : Option ModelCtx)
    (bottleneck_type : String) : List Suggestion :=
  if bottleneck_type = "compute" then
    getComputeBottleneckSuggestions mfu hardware_info model_info
  else if bottleneck_type = "memory" then
    getMemoryBottleneckSuggestions bandwidth_utilization hardware_info model_info
  else getBalancedSuggestions

/-! ### Claim theorems -/

/-- C1: for every model and every context length `c > 0`, generated length
`g > 0` and batch size `b ≥ 1`, the estimator computes
prefill FLOPs `= 2*(4*L*c*d*d + 3*L*c*d*i + L*c*d*n)` and
decode FLOPs `= 2*(4*L*d*d + 3*L*d*i + L*d*n)*g*b`; consequently decode
FLOPs at batch size 2 are twice those at batch size 1. -/
theorem c1_flops_formulas (model : ModelInfo) (c g b : ℚ)
    (_hc : 0 < c) (_hg : 0 < g) (_hb : 1 ≤ b) :
    calculatePrefillFlops model c =
      2 * (4 * model.num_layers * c * model.hidden_size * model.hidden_size +
        3 * model.num_layers * c * model.hidden_size * model.intermediate_size +
        model.num_layers * c * model.hidden_size * model.vocab_size) ∧
    calculateDecodeFlops model g b =
      2 * (4 * model.num_layers * model.hidden_size * model.hidden_size +
        3 * model.num_layers * model.hidden_size * model.intermediate_size +
        model.num_layers * model.hidden_size * model.vocab_size) * g * b ∧
    calculateDecodeFlops model g 2 = 2 * calculateDecodeFlops model g 1 := by
  refine ⟨?_, ?_, ?_⟩ <;>
    (simp only [calculatePrefillFlops, calculateDecodeFlops]; try ring)

/-- Witness for C1 at the Llama-7B shape with `c = 2048`, `g = 128`,
`b = 2`. -/
theorem c1_flops_formulas_witness :
    calculateDecodeFlops ⟨7, 32, 4096, 32, 32, 32000, 11008, 128, 4096⟩ 128 2 =
      2 * calculateDecodeFlops ⟨7, 32, 4096, 32, 32, 32000, 11008, 128, 4096⟩ 128 1 :=
  (c1_flops_formulas ⟨7, 32, 4096, 32, 32, 32000, 11008, 128, 4096⟩ 2048 128 2
    (by norm_num) (by norm_num) (by norm_num)).2.2

/-- C2: the bottleneck classification is "compute" iff `mfu > 70` and
`bandwidth < 40` (tested first), "memory" iff the compute test fails and
`mfu < 30` and `bandwidth > 70`, and "balanced" in every other case; in
particular everywhere in the dead zone `30 ≤ mfu ≤ 70` or
`40 ≤ bandwidth ≤ 70`. -/
theorem c2_bottleneck_classification (m u : ℚ) :
    (determineBottleneck m u = "compute" ↔ m > 70 ∧ u < 40) ∧
    (determineBottleneck m u = "memory" ↔
      ¬(m > 70 ∧ u < 40) ∧ (m < 30 ∧ u > 70)) ∧
    (determineBottleneck m u = "balanced" ↔
      ¬(m > 70 ∧ u < 40) ∧ ¬(m < 30 ∧ u > 70)) ∧
    ((30 ≤ m ∧ m ≤ 70) ∨ (40 ≤ u ∧ u ≤ 70) →
      determineBottleneck m u = "balanced") := by
  unfold determineBottleneck
  split_ifs with h1 h2
  · refine ⟨iff_of_true rfl h1, iff_of_false (by decide) (fun h => h.1 h1),
      iff_of_false (by decide) (fun h => h.1 h1), ?_⟩
    rintro (⟨ha, hb⟩ | ⟨ha, hb⟩) <;> exact absurd h1 (by rintro ⟨x, y⟩; linarith)
  · refine ⟨iff_of_false (by decide) h1, iff_of_true rfl ⟨h1, h2⟩,
      iff_of_false (by decide) (fun h => h.2 h2), ?_⟩
    rintro (⟨ha, hb⟩ | ⟨ha, hb⟩) <;> exact absurd h2 (by rintro ⟨x, y⟩; linarith)
  · exact ⟨iff_of_false (by decide) h1, iff_of_false (by decide) (fun h => h2 h.2),
      iff_of_true rfl ⟨h1, h2⟩, fun _ => rfl⟩

/-- Witness for C2 at the dead-zone point `mfu = 50`, `bandwidth = 50`. -/
theorem c2_bottleneck_classification_witness :
    determineBottleneck 50 50 = "balanced" :=
  (c2_bottleneck_classification 50 50).2.2.2 (Or.inl ⟨by norm_num, by norm_num⟩)

/-- C3 counterexample: on the A100 record (fp16 peak 1248, bf32 peak 624)
the precisions "fp16" and "bf16" do NOT select the same hardware
peak-throughput field: `_get_peak_flops` maps "fp16" to `fp16_peak_tflops`
but "bf16" to the distinct `bf32_peak_tflops` field. -/
theorem c3_peak_field_counterexample :
    getPeakFlops ⟨1248, 624, 312, 80, 2039 / 1000⟩ "fp16" ≠
      getPeakFlops ⟨1248, 624, 312, 80, 2039 / 1000⟩ "bf16" := by
  decide

/-- C3 (amended): "fp16" and "bf16" both select a byte width of 2 (with
"fp32" selecting 4) in every precision-dependent size formula of both
calculators, but for peak FLOPS "fp16" selects the `fp16_peak_tflops` field
while "bf16" selects the separate `bf32_peak_tflops` field. -/
theorem c3_precision_byte_widths (hardware : HardwareInfo) (model : ModelInfo)
    (c g b : ℚ) :
    PRECISION_SIZE "fp16" = 2 ∧ PRECISION_SIZE "bf16" = 2 ∧
    PRECISION_SIZE "fp32" = 4 ∧
    concPrecisionSize "fp16" = 2 ∧ concPrecisionSize "bf16" = 2 ∧
    concPrecisionSize "fp32" = 4 ∧
    calculateKvCache model c g b "bf16" = calculateKvCache model c g b "fp16" ∧
    calculateModelMemory model "bf16" = calculateModelMemory model "fp16" ∧
    weightMemoryGb model "bf16" = weightMemoryGb model "fp16" ∧
    kvCacheMemoryGb model c "bf16" = kvCacheMemoryGb model c "fp16" ∧
    activationMemoryGb model c "bf16" = activationMemoryGb model c "fp16" ∧
    getPeakFlops hardware "fp16" = hardware.fp16_peak_tflops ∧
    getPeakFlops hardware "bf16" = hardware.bf32_peak_tflops := by
  refine ⟨by decide, by decide, by decide, by decide, by decide, by decide,
    ?_, ?_, ?_, ?_, ?_, rfl, rfl⟩ <;>
    simp [calculateKvCache, calculateModelMemory, weightMemoryGb,
      kvCacheMemoryGb, activationMemoryGb, PRECISION_SIZE, concPrecisionSize]

/-- C4: the convenience function `calculate_mfu` never reads the
`gpu_count` key of its input dictionary, so the peak FLOPS it reports is
the single-device figure for every device count; at the inputs of
`tests/test_multi_gpu.py::test_calculate_mfu_with_gpu_count` (A100 record,
Llama-7B shape, fp16, gpu_count 8) it reports 1248 TFLOPS where the
repository's own test asserts 8 × 1248, so `peak_flops(N) = N * peak_flops(1)`
fails for `N = 8`. -/
theorem c4_peak_flops_ignores_gpu_count :
    (∀ (hardware : HardwareInfo) (model : ModelInfo) (r : CalcRequest) (N : ℚ),
      (calculate_mfu hardware model { r with gpu_count := N }).peak_flops =
        (calculate_mfu hardware model { r with gpu_count := 1 }).peak_flops) ∧
    (calculate_mfu ⟨1248, 624, 312, 80, 2039 / 1000⟩
        ⟨7, 32, 4096, 32, 32, 32000, 11008, 128, 4096⟩
        ⟨8, "fp16", 50, 10, 2048, 128, 1⟩).peak_flops = 1248 ∧
    (calculate_mfu ⟨1248, 624, 312, 80, 2039 / 1000⟩
        ⟨7, 32, 4096, 32, 32, 32000, 11008, 128, 4096⟩
        ⟨8, "fp16", 50, 10, 2048, 128, 1⟩).peak_flops ≠
      8 * (calculate_mfu ⟨1248, 624, 312, 80, 2039 / 1000⟩
        ⟨7, 32, 4096, 32, 32, 32000, 11008, 128, 4096⟩
        ⟨1, "fp16", 50, 10, 2048, 128, 1⟩).peak_flops := by
  refine ⟨fun _ _ _ _ => rfl, ?_, ?_⟩ <;>
    norm_num [calculate_mfu, calculate, getPeakFlops, pyRound, round_eq]

/-- C5: the MFU output of the estimator is `100 * actual_flops / peak_flops`
(rounded to 2 decimals, as all percentage outputs are) whenever
`peak_flops > 0`, is 0 whenever `peak_flops = 0`, and is never clamped:
a concrete input with an implausibly small TPOT yields a reported MFU
above 100. -/
theorem c5_mfu_formula :
    (∀ (hardware : HardwareInfo) (model : ModelInfo)
      (input_data : CalculationInput),
      (getPeakFlops hardware input_data.precision > 0 →
        (calculate hardware model input_data).mfu =
          pyRound (actualFlops hardware model input_data /
            getPeakFlops hardware input_data.precision * 100) 2) ∧
      (getPeakFlops hardware input_data.precision = 0 →
        (calculate hardware model input_data).mfu = 0)) ∧
    (calculate ⟨1, 0, 0, 0, 0⟩ ⟨0, 1, 1, 0, 0, 1, 1, 0, 0⟩
      ⟨"fp16", 0, 1 / 1000000000000, 1, 1, 1⟩).mfu > 100 := by
  refine ⟨fun hardware model input_data => ⟨fun h => ?_, fun h => ?_⟩, ?_⟩
  · simp only [calculate, mfuValue, if_pos h]
  · simp [calculate, mfuValue, h, pyRound]
  · norm_num [calculate, mfuValue, actualFlops, totalFlops, calculatePrefillFlops,
      calculateDecodeFlops, totalTimeMs, getPeakFlops, pyRound, round_eq]

/-- Witness for C5: both guarded branches applied at concrete inputs. -/
theorem c5_mfu_formula_witness :
    (calculate ⟨1248, 624, 312, 80, 2039 / 1000⟩
        ⟨7, 32, 4096, 32, 32, 32000, 11008, 128, 4096⟩
        ⟨"fp16", 50, 10, 2048, 128, 1⟩).mfu =
      pyRound (actualFlops ⟨1248, 624, 312, 80, 2039 / 1000⟩
        ⟨7, 32, 4096, 32, 32, 32000, 11008, 128, 4096⟩
        ⟨"fp16", 50, 10, 2048, 128, 1⟩ /
        getPeakFlops ⟨1248, 624, 312, 80, 2039 / 1000⟩ "fp16" * 100) 2 ∧
    (calculate ⟨0, 0, 0, 0, 0⟩ ⟨7, 32, 4096, 32, 32, 32000, 11008, 128, 4096⟩
        ⟨"fp16", 50, 10, 2048, 128, 1⟩).mfu = 0 :=
  ⟨(c5_mfu_formula.1 ⟨1248, 624, 312, 80, 2039 / 1000⟩
      ⟨7, 32, 4096, 32, 32, 32000, 11008, 128, 4096⟩
      ⟨"fp16", 50, 10, 2048, 128, 1⟩).1 (by norm_num [getPeakFlops]),
   (c5_mfu_formula.1 ⟨0, 0, 0, 0, 0⟩
      ⟨7, 32, 4096, 32, 32, 32000, 11008, 128, 4096⟩
      ⟨"fp16", 50, 10, 2048, 128, 1⟩).2 (by norm_num [getPeakFlops])⟩

/-- C6: total elapsed time is `first_token_latency_ms + g * tpot_ms`;
when it is non-positive the estimator pins actual FLOPS to peak FLOPS,
required bandwidth to 0 and tokens/second to 0 (all without raising — the
embedding is a total function), and otherwise
`actual_flops = total_flops / (total_time_ms/1000) / 1e12`. -/
theorem c6_degenerate_time (hardware : HardwareInfo) (model : ModelInfo)
    (input_data : CalculationInput) :
    totalTimeMs input_data = input_data.first_token_latency_ms +
      input_data.generated_length * input_data.tpot_ms ∧
    (totalTimeMs input_data ≤ 0 →
      actualFlops hardware model input_data =
        getPeakFlops hardware input_data.precision ∧
      calculateRequiredBandwidth (calculateModelMemory model input_data.precision)
        (calculateKvCache model input_data.context_length
          input_data.generated_length input_data.batch_size input_data.precision)
        (totalTimeMs input_data) input_data.batch_size = 0 ∧
      tokensPerSecond input_data = 0 ∧
      (calculate hardware model input_data).actual_flops =
        (calculate hardware model input_data).peak_flops) ∧
    (0 < totalTimeMs input_data →
      actualFlops hardware model input_data =
        totalFlops model input_data / (totalTimeMs input_data / 1000) /
          1000000000000) := by
  refine ⟨rfl, fun h => ?_, fun h => ?_⟩
  · have hts : totalTimeMs input_data / 1000 ≤ 0 := by linarith
    have ha : actualFlops hardware model input_data =
        getPeakFlops hardware input_data.precision := by
      simp only [actualFlops, if_pos hts]
    refine ⟨ha, ?_, ?_, ?_⟩
    · simp only [calculateRequiredBandwidth, if_pos h]
    · simp only [tokensPerSecond, if_neg (not_lt.mpr hts)]
    · simp only [calculate, ha]
  · have hts : ¬(totalTimeMs input_data / 1000 ≤ 0) := by
      push_neg; linarith
    simp only [actualFlops, if_neg hts]

/-- Witness for C6: the non-positive branch at an all-zero latency input and
the positive branch at the standard Llama-7B scenario. -/
theorem c6_degenerate_time_witness :
    actualFlops ⟨1248, 624, 312, 80, 2039 / 1000⟩
        ⟨7, 32, 4096, 32, 32, 32000, 11008, 128, 4096⟩
        ⟨"fp16", 0, 0, 2048, 128, 1⟩ =
      getPeakFlops ⟨1248, 624, 312, 80, 2039 / 1000⟩ "fp16" ∧
    actualFlops ⟨1248, 624, 312, 80, 2039 / 1000⟩
        ⟨7, 32, 4096, 32, 32, 32000, 11008, 128, 4096⟩
        ⟨"fp16", 50, 10, 2048, 128, 1⟩ =
      totalFlops ⟨7, 32, 4096, 32, 32, 32000, 11008, 128, 4096⟩
        ⟨"fp16", 50, 10, 2048, 128, 1⟩ / ((1330 : ℚ) / 1000) / 1000000000000 := by
  constructor
  · exact ((c6_degenerate_time ⟨1248, 624, 312, 80, 2039 / 1000⟩
      ⟨7, 32, 4096, 32, 32, 32000, 11008, 128, 4096⟩
      ⟨"fp16", 0, 0, 2048, 128, 1⟩).2.1 (by norm_num [totalTimeMs])).1
  · have h := (c6_degenerate_time ⟨1248, 624, 312, 80, 2039 / 1000⟩
      ⟨7, 32, 4096, 32, 32, 32000, 11008, 128, 4096⟩
      ⟨"fp16", 50, 10, 2048, 128, 1⟩).2.2 (by norm_num [totalTimeMs])
    rw [h]
    norm_num [totalTimeMs]

/-- C9: for every MFU value, bandwidth value and optional hardware/model
context, the "balanced" branch of the advisor returns exactly the two
low-priority suggestions (one status, one monitoring) and never a "high" or
"medium" priority entry. -/
theorem c9_balanced_suggestions (m u : ℚ) (hardware_info : Option HardwareCtx)
    (model_info : Option ModelCtx) :
    (generateSuggestions m u hardware_info model_info "balanced").length = 2 ∧
    (generateSuggestions m u hardware_info model_info "balanced").map
      Suggestion.priority = ["low", "low"] ∧
    (generateSuggestions m u hardware_info model_info "balanced").map
      Suggestion.category = ["Status", "Monitoring"] ∧
    ∀ s ∈ generateSuggestions m u hardware_info model_info "balanced",
      s.priority ≠ "high" ∧ s.priority ≠ "medium" := by
  refine ⟨rfl, rfl, rfl, ?_⟩
  intro s hs
  have : generateSuggestions m u hardware_info model_info "balanced" =
      getBalancedSuggestions := rfl
  rw [this] at hs
  simp only [getBalancedSuggestions, List.mem_cons, List.mem_singleton,
    List.not_mem_nil, or_false] at hs
  rcases hs with h | h <;> subst h <;> exact ⟨by decide, by decide⟩

/-- Helper: `pyTrunc` is monotone on nonnegative arguments. -/
theorem pyTrunc_mono_of_nonneg {p q : ℚ} (hp : 0 ≤ p) (h : p ≤ q) :
    pyTrunc p ≤ pyTrunc q := by
  unfold pyTrunc
  rw [if_neg (not_lt.mpr hp), if_neg (not_lt.mpr (hp.trans h))]
  exact Int.floor_le_floor h

/-- Helper: flooring at 0 wipes out a truncated non-positive quotient. -/
theorem max_pyTrunc_of_nonpos {q : ℚ} (hq : q ≤ 0) : max 0 (pyTrunc q) = 0 := by
  rcases lt_or_eq_of_le hq with h | h
  · unfold pyTrunc
    rw [if_pos h]
    have : (0 : ℤ) ≤ ⌊-q⌋ := Int.floor_nonneg.mpr (by linarith)
    exact max_eq_left (by omega)
  · subst h
    unfold pyTrunc
    norm_num

/-- C7: whenever the model fields and context length are nonnegative and
both per-request memory variants are positive, the concurrency estimator
returns a result with `max_concurrency_with_pa ≥ max_concurrency_without_pa`,
and both counts are `≥ 0` (floored at 0). -/
theorem c7_paged_attention_monotone (hardware : HardwareInfo)
    (model : ModelInfo) (gpu_count context_length : ℚ) (precision : String)
    (framework_overhead_gb : ℚ)
    (hL : 0 ≤ model.num_layers) (hH : 0 ≤ model.num_attention_heads)
    (hhd : 0 ≤ model.head_dim) (hcl : 0 ≤ context_length)
    (h1 : 0 < totalPerRequest model context_length precision framework_overhead_gb)
    (h2 : 0 < memoryWithPa model context_length precision framework_overhead_gb) :
    ∃ r, calculateConcurrencyLogic hardware model gpu_count context_length
        precision framework_overhead_gb = some r ∧
      r.max_concurrency_without_pa ≤ r.max_concurrency_with_pa ∧
      0 ≤ r.max_concurrency_without_pa ∧ 0 ≤ r.max_concurrency_with_pa := by
  have hps : 0 < concPrecisionSize precision := by
    unfold concPrecisionSize
    split_ifs <;> norm_num
  have hkv : 0 ≤ kvCacheMemoryGb model context_length precision := by
    unfold kvCacheMemoryGb
    have h2L : (0 : ℚ) ≤ 2 * model.num_layers := by linarith
    exact div_nonneg
      (mul_nonneg (mul_nonneg (mul_nonneg (mul_nonneg h2L hH) hhd) hcl) hps.le)
      (by norm_num)
  have hle : memoryWithPa model context_length precision framework_overhead_gb ≤
      totalPerRequest model context_length precision framework_overhead_gb := by
    unfold memoryWithPa totalPerRequest
    have e : kvCacheMemoryGb model context_length precision / (23 / 10) =
        (10 / 23) * kvCacheMemoryGb model context_length precision := by ring
    rw [e]
    linarith
  have hcond : ¬(totalPerRequest model context_length precision
      framework_overhead_gb = 0 ∨
      memoryWithPa model context_length precision framework_overhead_gb = 0) := by
    push_neg
    exact ⟨h1.ne', h2.ne'⟩
  refine ⟨_, by simp only [calculateConcurrencyLogic]; rw [if_neg hcond], ?_, ?_, ?_⟩
  · by_cases hA : 0 ≤ availableMemoryGb hardware gpu_count framework_overhead_gb
    · have hq1 : 0 ≤ availableMemoryGb hardware gpu_count framework_overhead_gb /
          totalPerRequest model context_length precision framework_overhead_gb :=
        div_nonneg hA h1.le
      have hq : availableMemoryGb hardware gpu_count framework_overhead_gb /
            totalPerRequest model context_length precision framework_overhead_gb ≤
          availableMemoryGb hardware gpu_count framework_overhead_gb /
            memoryWithPa model context_length precision framework_overhead_gb :=
        div_le_div_of_nonneg_left hA h2 hle
      exact max_le_max le_rfl (pyTrunc_mono_of_nonneg hq1 hq)
    · push_neg at hA
      rw [max_pyTrunc_of_nonpos (div_nonpos_of_nonpos_of_nonneg hA.le h1.le),
        max_pyTrunc_of_nonpos (div_nonpos_of_nonpos_of_nonneg hA.le h2.le)]
  · exact le_max_left 0 _
  · exact le_max_left 0 _

/-- Witness for C7 at the A100 record, Llama-7B shape, one device, context
4096, fp16, 2 GB framework overhead. -/
theorem c7_paged_attention_monotone_witness :
    ∃ r, calculateConcurrencyLogic ⟨1248, 624, 312, 80, 2039 / 1000⟩
        ⟨7, 32, 4096, 32, 32, 32000, 11008, 128, 4096⟩ 1 4096 "fp16" 2 = some r ∧
      r.max_concurrency_without_pa ≤ r.max_concurrency_with_pa ∧
      0 ≤ r.max_concurrency_without_pa ∧ 0 ≤ r.max_concurrency_with_pa :=
  c7_paged_attention_monotone ⟨1248, 624, 312, 80, 2039 / 1000⟩
    ⟨7, 32, 4096, 32, 32, 32000, 11008, 128, 4096⟩ 1 4096 "fp16" 2
    (by norm_num) (by norm_num) (by norm_num) (by norm_num)
    (by norm_num [totalPerRequest, weightMemoryGb, kvCacheMemoryGb,
      activationMemoryGb, concPrecisionSize])
    (by norm_num [memoryWithPa, weightMemoryGb, kvCacheMemoryGb,
      activationMemoryGb, concPrecisionSize])

/-- C8 counterexample: at the numerically degenerate but well-formed input
with the all-zero hardware and model records, device count 1, context 0,
precision "fp16" and zero framework overhead, the per-request memory sums to
0 and `calculate_concurrency_logic` divides by it, raising
`ZeroDivisionError` (modelled by `none`) instead of returning a result. -/
theorem c8_zero_memory_counterexample :
    calculateConcurrencyLogic ⟨0, 0, 0, 0, 0⟩ ⟨0, 0, 0, 0, 0, 0, 0, 0, 0⟩
      1 0 "fp16" 0 = none := by
  simp only [calculateConcurrencyLogic]
  rw [if_pos]
  left
  norm_num [totalPerRequest, weightMemoryGb, kvCacheMemoryGb,
    activationMemoryGb, concPrecisionSize]

/-- C8 (amended): the concurrency estimator returns a result without raising
on every input whose per-request memory variants are both nonzero; when the
per-request memory sums to 0 it raises a division error rather than
degrading to a sentinel. -/
theorem c8_total_when_memory_nonzero (hardware : HardwareInfo)
    (model : ModelInfo) (gpu_count context_length : ℚ) (precision : String)
    (framework_overhead_gb : ℚ)
    (h1 : totalPerRequest model context_length precision framework_overhead_gb ≠ 0)
    (h2 : memoryWithPa model context_length precision framework_overhead_gb ≠ 0) :
    ∃ r, calculateConcurrencyLogic hardware model gpu_count context_length
      precision framework_overhead_gb = some r := by
  simp only [calculateConcurrencyLogic]
  rw [if_neg (by push_neg; exact ⟨h1, h2⟩)]
  exact ⟨_, rfl⟩

/-- Witness for C8 (amended) at the A100 record, Llama-7B shape, one device,
context 4096, fp16, 2 GB framework overhead. -/
theorem c8_total_when_memory_nonzero_witness :
    ∃ r, calculateConcurrencyLogic ⟨1248, 624, 312, 80, 2039 / 1000⟩
      ⟨7, 32, 4096, 32, 32, 32000, 11008, 128, 4096⟩ 1 4096 "fp16" 2 = some r :=
  c8_total_when_memory_nonzero ⟨1248, 624, 312, 80, 2039 / 1000⟩
    ⟨7, 32, 4096, 32, 32, 32000, 11008, 128, 4096⟩ 1 4096 "fp16" 2
    (by norm_num [totalPerRequest, weightMemoryGb, kvCacheMemoryGb,
      activationMemoryGb, concPrecisionSize])
    (by norm_num [memoryWithPa, weightMemoryGb, kvCacheMemoryGb,
      activationMemoryGb, concPrecisionSize])

/-- C10: a precision string outside fp16/bf16/fp32 makes the utilization
estimator return exactly the result it returns for "fp16" (the unknown
precision falls back to the fp16 peak field and a 2-byte width), and makes
the concurrency estimator return exactly its "fp16" result as well. -/
theorem c10_unknown_precision_fallback (hardware : HardwareInfo)
    (model : ModelInfo) (input_data : CalculationInput)
    (gpu_count context_length framework_overhead_gb : ℚ)
    (hp1 : input_data.precision ≠ "fp16") (hp2 : input_data.precision ≠ "bf16")
    (hp3 : input_data.precision ≠ "fp32") :
    calculate hardware model input_data =
      calculate hardware model { input_data with precision := "fp16" } ∧
    calculateConcurrencyLogic hardware model gpu_count context_length
        input_data.precision framework_overhead_gb =
      calculateConcurrencyLogic hardware model gpu_count context_length
        "fp16" framework_overhead_gb := by
  have e1 : getPeakFlops hardware input_data.precision =
      getPeakFlops hardware "fp16" := by
    unfold getPeakFlops
    rw [if_neg hp1, if_neg hp2, if_neg hp3, if_pos rfl]
  have e2 : PRECISION_SIZE input_data.precision = PRECISION_SIZE "fp16" := by
    unfold PRECISION_SIZE
    rw [if_neg hp1, if_neg hp2, if_neg hp3, if_pos rfl]
  have e3 : concPrecisionSize input_data.precision = concPrecisionSize "fp16" := by
    unfold concPrecisionSize
    rw [if_neg hp1, if_neg hp2, if_neg hp3, if_pos rfl]
  constructor
  · simp only [calculate, mfuValue, actualFlops, bandwidthUtilization,
      tokensPerSecond, totalTimeMs, totalFlops, calculateKvCache,
      calculateModelMemory, calculateRequiredBandwidth, calculatePrefillFlops,
      calculateDecodeFlops, e1, e2]
  · simp only [calculateConcurrencyLogic, totalPerRequest, memoryWithPa,
      weightMemoryGb, kvCacheMemoryGb, activationMemoryGb,
      availableMemoryGb, e3]

/-- Witness for C10 at the unknown precision "int8" on the A100 record and
Llama-7B shape. -/
theorem c10_unknown_precision_fallback_witness :
    calculate ⟨1248, 624, 312, 80, 2039 / 1000⟩
        ⟨7, 32, 4096, 32, 32, 32000, 11008, 128, 4096⟩
        ⟨"int8", 50, 10, 2048, 128, 1⟩ =
      calculate ⟨1248, 624, 312, 80, 2039 / 1000⟩
        ⟨7, 32, 4096, 32, 32, 32000, 11008, 128, 4096⟩
        ⟨"fp16", 50, 10, 2048, 128, 1⟩ ∧
    calculateConcurrencyLogic ⟨1248, 624, 312, 80, 2039 / 1000⟩
        ⟨7, 32, 4096, 32, 32, 32000, 11008, 128, 4096⟩ 1 4096 "int8" 2 =
      calculateConcurrencyLogic ⟨1248, 624, 312, 80, 2039 / 1000⟩
        ⟨7, 32, 4096, 32, 32, 32000, 11008, 128, 4096⟩ 1 4096 "fp16" 2 :=
  c10_unknown_precision_fallback ⟨1248, 624, 312, 80, 2039 / 1000⟩
    ⟨7, 32, 4096, 32, 32, 32000, 11008, 128, 4096⟩
    ⟨"int8", 50, 10, 2048, 128, 1⟩ 1 4096 2
    (by decide) (by decide) (by decide)

end ModelViewer
